import Mathlib

/-!
Verification of the tulip-control symbolic core: a shallow embedding of
`tulip/synth.py` (the transition-system-to-GR(1) encoder and its
variable-encoding helpers) and of `tulip/spec/ast.py` (the LTL abstract
syntax tree and its per-dialect emitters), together with theorems that
settle the spec's claims about them.

Conventions of the embedding:
 - Python strings are Lean `String`; string concatenation and
   `" sep ".join(...)` become `++` and `String.intercalate`.
 - Python lists are Lean `List`; `lst += [x]` is modelled by building
   the result with `List.map` / appends in loop order.
 - Python dicts are association lists `List (k × v)`; `d.update(...)`
   replaces the value at an existing key and appends fresh keys
   (see `dictUpdate`).
 - The diagnostic side effect `warnings.warn(msg)` is modelled by an
   extra `List String` component in the return value of each function
   that can warn: the list of warning messages emitted, in order.
   Functions whose bodies contain no `warn` call get no such component
   (or a constantly empty one, where a claim speaks about warnings).
 - `raise`/exceptions become `Except String` results.
-/

namespace Tulip

/-- Domain of a GR(1) variable: `'boolean'`, an integer interval tuple
`(lo, hi)`, or an explicit finite enumeration of string values, as in
`tulip/synth.py`. -/
inductive Domain where
  | boolean : Domain
  | intRange (lo hi : Int) : Domain
  | enum (vals : List String) : Domain
deriving DecidableEq, Repr

/-- `pstr(s)` from synth.py: wrap in parentheses. -/
def pstr (s : String) : String := "(" ++ s ++ ")"

/-- `_disj(set0)`: `" || ".join("(" + x + ")" for x in set0)`. -/
def disjOf (set0 : List String) : String :=
  String.intercalate " || " (set0.map fun x => "(" ++ x ++ ")")

/-- `_conj(set0)`: `" && ".join("(" + x + ")" for x in set0)`. -/
def conjOf (set0 : List String) : String :=
  String.intercalate " && " (set0.map fun x => "(" ++ x ++ ")")

/-- `_conj_intersection(set0, set1, parenth)`. -/
def conjIntersection (set0 set1 : List String) (parenth : Bool) : String :=
  if parenth then
    String.intercalate " && "
      ((set0.filter fun x => x ∈ set1).map fun x => "(" ++ x ++ ")")
  else
    String.intercalate " && " (set0.filter fun x => x ∈ set1)

/-- `_conj_neg(set0, parenth)`. -/
def conjNeg (set0 : List String) (parenth : Bool) : String :=
  if parenth then
    String.intercalate " && " (set0.map fun x => "!(" ++ x ++ ")")
  else
    String.intercalate " && " (set0.map fun x => "!" ++ x)

/-- `_conj_neg_diff(set0, set1, parenth)`: negate the elements of `set0`
not occurring in `set1`. -/
def conjNegDiff (set0 set1 : List String) (parenth : Bool) : String :=
  if parenth then
    String.intercalate " && "
      ((set0.filter fun x => x ∉ set1).map fun x => "!(" ++ x ++ ")")
  else
    String.intercalate " && " ((set0.filter fun x => x ∉ set1).map fun x => "!" ++ x)

/-- `mutex(iterable)` from synth.py: mutual exclusion for all time.
Skips labels equal to the empty string; returns the empty list for
0 or 1 remaining labels, else one big conjunction. -/
def mutex (iterable : List String) : List String :=
  let it := iterable.filter fun x => x ≠ ""
  if it.length ≤ 1 then []
  else
    [conjOf (it.map fun x =>
      "!(" ++ x ++ ") || (" ++ conjNegDiff it [x] true ++ ")")]

/-- `exactly_one(iterable)` from synth.py: n-ary xor. For 0 or 1 labels
it returns each label parenthesised (`pstr`), else one big disjunction. -/
def exactly_one (iterable : List String) : List String :=
  if iterable.length ≤ 1 then iterable.map pstr
  else
    ["(" ++ disjOf (iterable.map fun x =>
      "(" ++ x ++ ") && " ++ conjNegDiff iterable [x] true) ++ ")"]

/-- Truth value, under valuation `v`, of the formula list produced by
`mutex`: an `&&`-join denotes Bool conjunction (`List.all`), a `||`-join
denotes disjunction, `!(x)` denotes negation of the atom `x`, and
parentheses do not affect semantics.  The structure mirrors `mutex`
clause for clause: the member for `x` is `!(x) || (AND of !(y) for
y in the filtered list with y ∉ [x])`; an empty join denotes the unit
of the connective (`true` for `&&`). -/
def mutex_sem (iterable : List String) (v : String → Bool) : Bool :=
  let it := iterable.filter fun x => x ≠ ""
  if it.length ≤ 1 then true
  else
    it.all fun x => (!(v x)) || (it.filter fun y => y ∉ [x]).all fun y => !(v y)

/-- Truth value, under valuation `v`, of the formula list produced by
`exactly_one`, read exactly as `mutex_sem` reads `mutex`: for 0 or 1
labels the list of formulas `[(x)]` holds iff every listed atom holds;
otherwise the single formula is the `||`-join over `x` of
`(x) && (AND of !(y) for y ∉ [x])`. -/
def exactly_one_sem (iterable : List String) (v : String → Bool) : Bool :=
  if iterable.length ≤ 1 then iterable.all v
  else
    iterable.any fun x => v x && (iterable.filter fun y => y ∉ [x]).all fun y => !(v y)

/-- Python `dict` update at one key: replace the value at an existing
key, append a fresh key at the end. -/
def dictUpdate (d : List (String × Domain)) (k : String) (v : Domain) :
    List (String × Domain) :=
  if d.any fun p => p.1 = k then
    d.map fun p => if p.1 = k then (k, v) else p
  else d ++ [(k, v)]

/-- Python `variables.update({...})` over a key/value list. -/
def dictUpdateMany (d : List (String × Domain)) (l : List (String × Domain)) :
    List (String × Domain) :=
  l.foldl (fun d p => dictUpdate d p.1 p.2) d

/-- `states2ints(states, statevar)` from synth.py: map each state to
`statevar + ' = ' + ...`.  When every state is a letter followed by an
integer, drop the first character so the user controls the numbering and
the domain is the tuple `(0, len(states)-1)`; otherwise keep the full
state name and the domain is the explicit state list.  (`int(state[1:])`
succeeding is modelled by `String.toInt?` on the dropped-head string.) -/
def states2ints (states : List String) (statevar : String) :
    (String → String) × Domain :=
  let letter_int := states.all fun state => ((state.drop 1).toInt?).isSome
  if letter_int then
    (fun x => statevar ++ " = " ++ x.drop 1,
     Domain.intRange 0 (Int.ofNat states.length - 1))
  else
    (fun s => statevar ++ " = " ++ s, Domain.enum states)

/-- `create_states(states, variables, trans, statevar, bool_states)` from
synth.py.  Python mutates `variables` and `trans` and returns the state
id map; the embedding returns the triple
`(state_ids, variables', trans')`.  Fewer than 3 states overrides
`bool_states` to `True` (gr1c handles 2-valued int domains poorly).
In the bool case the id map is the identity (`{x: x for x in states}`),
every state becomes a `'boolean'` variable, and the generated
exactly-one constraint is appended to `trans`. -/
def create_states (states : List String) (vars : List (String × Domain))
    (trans : List String) (statevar : String) (bool_states : Bool) :
    (String → String) × List (String × Domain) × List String :=
  let bool_states := if states.length < 3 then true else bool_states
  if bool_states then
    (fun x => x,
     dictUpdateMany vars (states.map fun s => (s, Domain.boolean)),
     trans ++ exactly_one states)
  else
    let p := states2ints states statevar
    (p.1, dictUpdate vars statevar p.2, trans)

/-- An FTS action value: Python `isinstance(action, int)` distinguishes
integer-valued actions from string-valued ones. -/
inductive ActVal where
  | intv (n : Int) : ActVal
  | strv (s : String) : ActVal
deriving DecidableEq, Repr

/-- Python `str(action)`. -/
def ActVal.name : ActVal → String
  | .intv n => toString n
  | .strv s => s

/-- The `actions_must` option of `create_actions`: `None`, `'mutex'`, or
`'xor'` (any other Python value raises, so the embedding uses an
enumeration of the accepted values). -/
inductive ActionsMust where
  | none : ActionsMust
  | mutex : ActionsMust
  | xor : ActionsMust
deriving DecidableEq, Repr

/-- `actions2ints(actions, actionvar, min_one)` from synth.py.  All-int
action sets keep their own values and get the int domain `(0, n)` with
`n = len(actions) - 1` when `min_one` else `n = len(actions)` (the extra
value models all actions False).  Otherwise actions map to
`actionvar + ' = ' + str(action)` and the domain is the action list,
extended, when not `min_one`, by the extra value `actionvar + 'none'`.
(The id map is returned as the rendered string of each action.) -/
def actions2ints (actions : List ActVal) (actionvar : String) (min_one : Bool) :
    (ActVal → String) × Domain :=
  let int_actions := actions.all fun a =>
    match a with
    | .intv _ => true
    | .strv _ => false
  if int_actions then
    (fun x => x.name,
     Domain.intRange 0
       (if min_one then Int.ofNat actions.length - 1 else Int.ofNat actions.length))
  else
    (fun s => actionvar ++ " = " ++ s.name,
     Domain.enum
       ((actions.map ActVal.name) ++ if min_one then [] else [actionvar ++ "none"]))

/-- `create_actions(actions, variables, trans, init, actionvar,
bool_actions, actions_must)` from synth.py.  Python mutates `variables`,
`trans` and `init` and returns the action id map (or `None` for an empty
action set); the embedding returns
`(action_ids?, variables', trans', init')`.  Without mutual exclusion
(`actions_must == None`) bool variables are forced.  In the bool case,
when `mutex(action_ids.values())` is empty (single action) the function
returns before adding any constraint; with `'mutex'` it appends the
mutex constraint to `init` and its `X (...)` form to `trans`; with
`'xor'` likewise for the exactly-one constraint.  In the int case the
single variable `actionvar` receives the `actions2ints` domain. -/
def create_actions (actions : List ActVal) (vars : List (String × Domain))
    (trans init : List String) (actionvar : String) (bool_actions : Bool)
    (actions_must : ActionsMust) :
    Option (ActVal → String) × List (String × Domain) × List String × List String :=
  if actions.isEmpty then (none, vars, trans, init)
  else
    let use_mutex := actions_must ≠ ActionsMust.none
    let min_one := actions_must = ActionsMust.xor
    -- no mutex -> cannot use int variable
    let bool_actions := if ¬ use_mutex then true else bool_actions
    if bool_actions then
      let vals := actions.map ActVal.name
      let vars := dictUpdateMany vars (vals.map fun a => (a, Domain.boolean))
      -- single action ?
      if (mutex vals).isEmpty then (some ActVal.name, vars, trans, init)
      else if use_mutex ∧ ¬ min_one then
        (some ActVal.name, vars,
         trans ++ ["X (" ++ (mutex vals).headD "" ++ ")"],
         init ++ mutex vals)
      else if use_mutex ∧ min_one then
        (some ActVal.name, vars,
         trans ++ ["X (" ++ (exactly_one vals).headD "" ++ ")"],
         init ++ exactly_one vals)
      else
        (some ActVal.name, vars, trans, init)
    else
      let p := actions2ints actions actionvar min_one
      (some p.1, dictUpdate vars actionvar p.2, trans, init)

/-- A transition/state label: the free-form label dict of
`tulip.transys` restricted to the fields the encoder reads
(`'ap'`, `'env_actions'`, `'sys_actions'`, `'actions'`); `none` models
the key being absent (`action_type not in label`). -/
structure Label where
  ap : Option (List String) := Option.none
  env_actions : Option String := Option.none
  sys_actions : Option String := Option.none
  actions : Option String := Option.none
deriving DecidableEq, Repr

/-- The states container of a (closed or open) FTS, as the encoder uses
it: iteration order of `states`, the `states.initial` sub-list, and
`states.label_of`. -/
structure FtsStates where
  all : List String
  initial : List String
  label_of : String → Label

/-- The labelled transition relation: a list of
`(from_state, to_state, label)` triples.  `trans.find([s])` returns the
transitions leaving `s`, in relation order. -/
structure Transitions where
  triples : List (String × String × Label)

/-- `trans.find([from_state])`. -/
def Transitions.find (t : Transitions) (from_state : String) :
    List (String × String × Label) :=
  t.triples.filter fun tr => tr.1 = from_state

/-- `_conj_action(label, action_type, nxt, ids)` from synth.py:
empty string when the field is absent or the (id-mapped) action is the
empty string, else `' && X(action)'` or `' && (action)'`.  `ids` is the
action id dict (`None` modelled as `Option.none`); a lookup on a key the
dict lacks cannot occur in the encoder calls and is modelled as the
identity. -/
def conjAction (label : Label) (get : Label → Option String) (nxt : Bool)
    (ids : Option (List (String × String))) : String :=
  match get label with
  | Option.none => ""
  | some action =>
    let action := match ids with
      | Option.none => action
      | some d => (d.lookup action).getD action
    if action = "" then ""
    else if nxt then " && X" ++ pstr action
    else " && " ++ pstr action

/-- `sprint_aps(label, aps)` from synth.py. -/
def sprint_aps (label : Label) (aps : List String) : String :=
  let tmp0 := match label.ap with
    | some apSet => conjIntersection aps apSet false
    | Option.none => ""
  let tmp1 := match label.ap with
    | some apSet => conjNegDiff aps apSet false
    | Option.none => conjNeg aps false
  if 0 < tmp0.length ∧ 0 < tmp1.length then tmp0 ++ " && " ++ tmp1
  else tmp0 ++ tmp1

/-- The warning text of `sys_init_from_ts` for an FTS with no initial
states. -/
def noInitialStatesMsg : String :=
  "FTS has no initial states.\n" ++
  "Enforcing this renders False the GR(1):\n" ++
  " - guarantee if this is a system TS,\n" ++
  "   so the spec becomes trivially False.\n" ++
  " - assumption if this is an environment TS,\n" ++
  "   so the spec becomes trivially True."

/-- `sys_init_from_ts(states, state_ids, aps, ignore_initial)` from
synth.py, returning `(init, warnings)`.  First, for every initial state
whose `sprint_aps` string is non-empty, the clause
`'!(' + pstr(state_id) + ') || (' + ap_str + ')'` is appended.  Then,
unless `ignore_initial`: an empty initial set appends `'False'` and
warns; otherwise the disjunction over the initial states' ids is
appended. -/
def sys_init_from_ts (states : FtsStates) (state_ids : String → String)
    (aps : List String) (ignore_initial : Bool) : List String × List String :=
  let init := states.initial.filterMap fun state =>
    let ap_str := sprint_aps (states.label_of state) aps
    if ap_str = "" then Option.none
    else some ("!(" ++ pstr (state_ids state) ++ ") || (" ++ ap_str ++ ")")
  if ignore_initial then (init, [])
  else if states.initial.isEmpty then
    (init ++ ["False"], [noInitialStatesMsg])
  else
    (init ++ [disjOf (states.initial.map fun s => state_ids s)], [])

/-- The per-state clause of `sys_trans_from_ts`: a state with no
successors yields `precond + ' -> X(False)'`; otherwise the
postcondition of each outgoing transition conjoins the next state id
with the edge's env/sys/plain action ids, and the clause is
`precond + ' -> X(' + _disj(cur_str) + ')'`. -/
def sysTransClause (state_ids : String → String) (trans : Transitions)
    (action_ids sys_action_ids env_action_ids : Option (List (String × String)))
    (from_state : String) : String :=
  let precond := pstr (state_ids from_state)
  let cur_trans := trans.find from_state
  if cur_trans.isEmpty then precond ++ " -> X(False)"
  else
    let cur_str := cur_trans.map fun tr =>
      pstr (state_ids tr.2.1)
        ++ conjAction tr.2.2 Label.env_actions false env_action_ids
        ++ conjAction tr.2.2 Label.sys_actions false sys_action_ids
        ++ conjAction tr.2.2 Label.actions false action_ids
    precond ++ " -> X(" ++ disjOf cur_str ++ ")"

/-- `sys_trans_from_ts(states, state_ids, trans, ...)` from synth.py,
returning `(sys_trans, warnings)`.  The loop appends exactly one clause
per state (`sysTransClause`); the function body contains no `warn`
call, so the warning list is empty. -/
def sys_trans_from_ts (states : List String) (state_ids : String → String)
    (trans : Transitions)
    (action_ids sys_action_ids env_action_ids : Option (List (String × String))) :
    List String × List String :=
  (states.map fun from_state =>
     sysTransClause state_ids trans action_ids sys_action_ids env_action_ids
       from_state,
   [])

/-- The warning text of `env_trans_from_env_ts` for an environment
dead-end. -/
def envDeadEndMsg : String :=
  "Environment dead-end found.\n" ++
  "If sys can force env to dead-end,\n" ++
  "then GR(1) assumption becomes False,\n" ++
  "and spec trivially True."

/-- Python truthiness of an optional dict: `None` and `{}` are falsy. -/
def dictTruthy (d : Option (List (String × String))) : Bool :=
  match d with
  | Option.none => false
  | some l => ¬ l.isEmpty

/-- The postcondition built by `env_trans_from_env_ts` for one outgoing
transition: `'X' + pstr(to_state_id)` conjoined with the next-step env
and plain action ids and the current-step sys action id, the whole
wrapped by `pstr`. -/
def envEdgePostcond (state_ids : String → String)
    (action_ids env_action_ids sys_action_ids : Option (List (String × String)))
    (tr : String × String × Label) : String :=
  pstr ("X" ++ pstr (state_ids tr.2.1)
    ++ conjAction tr.2.2 Label.env_actions true env_action_ids
    ++ conjAction tr.2.2 Label.actions true action_ids
    ++ conjAction tr.2.2 Label.sys_actions false sys_action_ids)

/-- The per-state clause of `env_trans_from_env_ts` for a state with at
least one outgoing transition: the disjunction of the edge
postconditions, extended — when no edge is free of a sys-action
condition and sys action ids are truthy — by the conjunction of all
negated sys actions (so that the system cannot force the assumption
`False` by asserting no action), guarded by the doubly parenthesised
precondition. -/
def envTransClause (state_ids : String → String) (trans : Transitions)
    (action_ids env_action_ids sys_action_ids : Option (List (String × String)))
    (from_state : String) : String :=
  let precond := pstr (state_ids from_state)
  let cur_trans := trans.find from_state
  if cur_trans.isEmpty then precond ++ " -> X(False)"
  else
    let cur_list := cur_trans.map fun tr =>
      envEdgePostcond state_ids action_ids env_action_ids sys_action_ids tr
    let found_free := cur_trans.any fun tr =>
      conjAction tr.2.2 Label.sys_actions false sys_action_ids = ""
    let cur_list := if ¬ found_free ∧ dictTruthy sys_action_ids then
        cur_list ++ [conjNeg ((sys_action_ids.getD []).map fun p => p.2) true]
      else cur_list
    pstr precond ++ " -> (" ++ disjOf cur_list ++ ")"

/-- `env_trans_from_env_ts(states, state_ids, trans, ...)` from
synth.py, returning `(env_trans, warnings)`.  The loop appends one
clause per state (`envTransClause`) and one dead-end warning per state
with no outgoing transition. -/
def env_trans_from_env_ts (states : List String) (state_ids : String → String)
    (trans : Transitions)
    (action_ids env_action_ids sys_action_ids : Option (List (String × String))) :
    List String × List String :=
  (states.map fun from_state =>
     envTransClause state_ids trans action_ids env_action_ids sys_action_ids
       from_state,
   (states.filter fun s => (trans.find s).isEmpty).map fun _ => envDeadEndMsg)

/-!
Embedding of `tulip/spec/ast.py`.

Every `Node` registers itself in a `networkx.DiGraph` under the key
`id(self)` (a Python object id, here an explicit `Nat` carried by each
constructor), and `Unary.__init__`/`Binary.__init__` record the children
as edges `id(self) -> id(child)`.  The child accessors
(`Unary.operand`, `Binary.op_l`, `Binary.op_r` via `_child`) read the
graph successors and therefore return the child's integer id, not the
child node.  Consequently, in `Unary.flatten`/`Binary.flatten` the call
`flattener(self.op_l, **args)` raises `AttributeError` (an `int` has no
`to_gr1c`/`to_jtlv`), the `except AttributeError` fallback runs, and
the operand is rendered as `str(<child id>)` — the decimal digits of
the id.  The rendering therefore never recurses into child nodes, and
only the root node can raise an `LTLException`.

The `UnTempOp`/`BiTempOp` constructors replace the surface operator via
`TEMPORAL_OP_MAP` (e.g. both `'V'` and `'R'` become `'R'`); the
constructors below store the already-mapped operator, and `mkUnTempOp` /
`mkBiTempOp` model the fallible construction from surface text.
`Comparator.__init__` rewrites `'=='` to `'='`.
-/

/-- `TEMPORAL_OP_MAP` from ast.py. -/
def TEMPORAL_OP_MAP : String → Option String
  | "G" => some "G"
  | "F" => some "F"
  | "X" => some "X"
  | "[]" => some "G"
  | "<>" => some "F"
  | "next" => some "X"
  | "U" => some "U"
  | "V" => some "R"
  | "R" => some "R"
  | "'" => some "X"
  | "FALSE" => some "False"
  | "TRUE" => some "True"
  | _ => Option.none

/-- `GR1C_MAP` from ast.py. -/
def GR1C_MAP : String → Option String
  | "G" => some "[]"
  | "F" => some "<>"
  | "X" => some "'"
  | "||" => some "|"
  | "&&" => some "&"
  | "False" => some "False"
  | "True" => some "True"
  | _ => Option.none

/-- `JTLV_MAP` from ast.py. -/
def JTLV_MAP : String → Option String
  | "G" => some "[]"
  | "F" => some "<>"
  | "X" => some "next"
  | "U" => some "U"
  | "||" => some "||"
  | "&&" => some "&&"
  | "False" => some "FALSE"
  | "True" => some "TRUE"
  | _ => Option.none

/-- The AST node classes of ast.py.  Each node carries the `Nat`
modelling its Python `id(self)` graph key.  `untemp`/`bitemp` store the
`TEMPORAL_OP_MAP`-image operator; `comparator` stores the operator
after the `'=='`-to-`'='` rewrite; `arith` stores it verbatim. -/
inductive AstNode where
  | num (id : Nat) (val : Int) : AstNode
  | var (id : Nat) (val : String) : AstNode
  | const (id : Nat) (val : String) : AstNode
  | bool (id : Nat) (val : Bool) : AstNode
  | nt (id : Nat) (x : AstNode) : AstNode
  | untemp (id : Nat) (op : String) (x : AstNode) : AstNode
  | and (id : Nat) (l r : AstNode) : AstNode
  | or (id : Nat) (l r : AstNode) : AstNode
  | xor (id : Nat) (l r : AstNode) : AstNode
  | imp (id : Nat) (l r : AstNode) : AstNode
  | biimp (id : Nat) (l r : AstNode) : AstNode
  | bitemp (id : Nat) (op : String) (l r : AstNode) : AstNode
  | comparator (id : Nat) (op : String) (l r : AstNode) : AstNode
  | arith (id : Nat) (op : String) (l r : AstNode) : AstNode
deriving DecidableEq, Repr

/-- The graph key `id(self)` of a node. -/
def AstNode.nodeId : AstNode → Nat
  | .num i _ => i
  | .var i _ => i
  | .const i _ => i
  | .bool i _ => i
  | .nt i _ => i
  | .untemp i _ _ => i
  | .and i _ _ => i
  | .or i _ _ => i
  | .xor i _ _ => i
  | .imp i _ _ => i
  | .biimp i _ _ => i
  | .bitemp i _ _ _ => i
  | .comparator i _ _ _ => i
  | .arith i _ _ _ => i

/-- `UnTempOp.__init__`: maps the surface operator through
`TEMPORAL_OP_MAP` (a missing key raises `KeyError`). -/
def mkUnTempOp (i : Nat) (operator : String) (x : AstNode) : Option AstNode :=
  (TEMPORAL_OP_MAP operator).map fun op => AstNode.untemp i op x

/-- `BiTempOp.__init__`: maps the surface operator through
`TEMPORAL_OP_MAP` (a missing key raises `KeyError`). -/
def mkBiTempOp (i : Nat) (operator : String) (x y : AstNode) : Option AstNode :=
  (TEMPORAL_OP_MAP operator).map fun op => AstNode.bitemp i op x y

/-- `str(val)` of a `Bool` node. -/
def boolStr (b : Bool) : String := if b then "True" else "False"

/-- What `Unary.flatten(flattener, op, **args)` returns, given that the
operand accessor yields the child's graph id: the `AttributeError`
fallback renders the operand as `str(<id>)` and the result is
`' '.join(['(', op, o, ')'])`. -/
def unaryFlatten (op : String) (child : AstNode) : String :=
  "( " ++ op ++ " " ++ toString child.nodeId ++ " )"

/-- What `Binary.flatten(flattener, op, **args)` returns, children
rendered as their graph ids by the `AttributeError` fallback. -/
def binaryFlatten (op : String) (l r : AstNode) : String :=
  "( " ++ toString l.nodeId ++ " " ++ op ++ " " ++ toString r.nodeId ++ " )"

/-- `to_gr1c(primed)` on each node class.  Leaves render themselves
(`Var` appends `'` when primed; `Const` keeps its stored quotes; `Bool`
goes through `GR1C_MAP`, where `'True'`/`'False'` are always present).
`UnTempOp` with op `'X'` flattens with the empty operator string
(yielding the double space of `' '.join(['(', '', o, ')'])`); other
unary/binary temporal operators go through `GR1C_MAP`, raising
`LTLException` on a missing key.  The remaining binary classes flatten
with their fixed `op` property (`&`, `|`, `xor`, `->`, `<->`, or the
stored comparator/arithmetic operator).  Children appear as graph ids
throughout (see the module comment), so no case recurses. -/
def to_gr1c (primed : Bool) : AstNode → Except String String
  | .num _ v => .ok (toString v)
  | .var _ s => .ok (if primed then s ++ "'" else s)
  | .const _ t =>
    .ok (if primed then "\"" ++ t ++ "\"'" else "\"" ++ t ++ "\"")
  | .bool _ b =>
    match GR1C_MAP (boolStr b) with
    | some s => .ok s
    | Option.none =>
      .error ("Reserved word \"" ++ boolStr b ++
        "\" not supported in gr1c syntax map")
  | .nt _ x => .ok (unaryFlatten "!" x)
  | .untemp _ op x =>
    if op = "X" then .ok ("(  " ++ toString x.nodeId ++ " )")
    else
      match GR1C_MAP op with
      | some tok => .ok (unaryFlatten tok x)
      | Option.none =>
        .error ("Operator " ++ op ++ " not supported in gr1c syntax map")
  | .and _ l r => .ok (binaryFlatten "&" l r)
  | .or _ l r => .ok (binaryFlatten "|" l r)
  | .xor _ l r => .ok (binaryFlatten "xor" l r)
  | .imp _ l r => .ok (binaryFlatten "->" l r)
  | .biimp _ l r => .ok (binaryFlatten "<->" l r)
  | .bitemp _ op l r =>
    match GR1C_MAP op with
    | some tok => .ok (binaryFlatten tok l r)
    | Option.none =>
      .error ("Operator " ++ op ++ " not supported in gr1c syntax map")
  | .comparator _ op l r => .ok (binaryFlatten op l r)
  | .arith _ op l r => .ok (binaryFlatten op l r)

/-- `to_jtlv()` on each node class: `Var`/`Const` wrap themselves in
parentheses, `Bool` and the temporal operators go through `JTLV_MAP`
(raising `LTLException` on a missing key), `And`/`Or` flatten with
`'&&'`/`'||'`, the remaining binary classes with their `op` property.
Children appear as graph ids, as in `to_gr1c`. -/
def to_jtlv : AstNode → Except String String
  | .num _ v => .ok (toString v)
  | .var _ s => .ok ("(" ++ s ++ ")")
  | .const _ t => .ok ("(" ++ "\"" ++ t ++ "\"" ++ ")")
  | .bool _ b =>
    match JTLV_MAP (boolStr b) with
    | some s => .ok s
    | Option.none =>
      .error ("Reserved word \"" ++ boolStr b ++
        "\" not supported in JTLV syntax map")
  | .nt _ x => .ok (unaryFlatten "!" x)
  | .untemp _ op x =>
    match JTLV_MAP op with
    | some tok => .ok (unaryFlatten tok x)
    | Option.none =>
      .error ("Operator " ++ op ++ " not supported in JTLV syntax map")
  | .and _ l r => .ok (binaryFlatten "&&" l r)
  | .or _ l r => .ok (binaryFlatten "||" l r)
  | .xor _ l r => .ok (binaryFlatten "xor" l r)
  | .imp _ l r => .ok (binaryFlatten "->" l r)
  | .biimp _ l r => .ok (binaryFlatten "<->" l r)
  | .bitemp _ op l r =>
    match JTLV_MAP op with
    | some tok => .ok (binaryFlatten tok l r)
    | Option.none =>
      .error ("Operator " ++ op ++ " not supported in JTLV syntax map")
  | .comparator _ op l r => .ok (binaryFlatten op l r)
  | .arith _ op l r => .ok (binaryFlatten op l r)

/-- A temporal release node (`BiTempOp` with stored operator `'R'`)
occurs somewhere in the tree. -/
def containsRelease : AstNode → Bool
  | .nt _ x => containsRelease x
  | .untemp _ _ x => containsRelease x
  | .and _ l r => containsRelease l || containsRelease r
  | .or _ l r => containsRelease l || containsRelease r
  | .xor _ l r => containsRelease l || containsRelease r
  | .imp _ l r => containsRelease l || containsRelease r
  | .biimp _ l r => containsRelease l || containsRelease r
  | .bitemp _ op l r =>
    op == "R" || containsRelease l || containsRelease r
  | .comparator _ _ l r => containsRelease l || containsRelease r
  | .arith _ _ l r => containsRelease l || containsRelease r
  | _ => false

/-- Whether a node is an instance of `Binary`. -/
def isBinary : AstNode → Bool
  | .and _ _ _ => true
  | .or _ _ _ => true
  | .xor _ _ _ => true
  | .imp _ _ _ => true
  | .biimp _ _ _ => true
  | .bitemp _ _ _ _ => true
  | .comparator _ _ _ _ => true
  | .arith _ _ _ _ => true
  | _ => false

/-- `pat` is an initial segment of `s` (on character lists). -/
def charsStartWith : List Char → List Char → Bool
  | _, [] => true
  | [], _ :: _ => false
  | a :: as, b :: bs => a == b && charsStartWith as bs

/-- `pat` occurs contiguously somewhere in `s` (on character lists). -/
def charsContain : List Char → List Char → Bool
  | [], pat => pat.isEmpty
  | s@(_ :: tl), pat => charsStartWith s pat || charsContain tl pat

/-- Substring test on strings (for parenthesisation checks). -/
def strContains (s pat : String) : Bool :=
  charsContain s.data pat.data

/-! Helper lemmas shared by the claim theorems. -/

theorem mutex_singleton (x : String) : mutex [x] = [] := by
  by_cases h : x = ""
  · subst h; rfl
  · simp [mutex, h]

theorem exactly_one_singleton (x : String) : exactly_one [x] = [pstr x] := rfl

theorem dictUpdate_mem {vars : List (String × Domain)} {k : String} {v : Domain}
    {p : String × Domain} (h : p ∈ dictUpdate vars k v) :
    p = (k, v) ∨ p ∈ vars := by
  unfold dictUpdate at h
  by_cases hk : vars.any fun q => q.1 = k
  · rw [if_pos hk] at h
    obtain ⟨a, ha, hfa⟩ := List.mem_map.mp h
    by_cases hak : a.1 = k
    · left; rw [if_pos hak] at hfa; exact hfa.symm
    · right; rw [if_neg hak] at hfa; exact hfa ▸ ha
  · rw [if_neg hk] at h
    rcases List.mem_append.mp h with h' | h'
    · right; exact h'
    · left; simpa using h'

theorem dictUpdateMany_mem {l : List (String × Domain)}
    (hl : ∀ q ∈ l, q.2 = Domain.boolean) :
    ∀ {vars : List (String × Domain)} {p : String × Domain},
      p ∈ dictUpdateMany vars l → p.2 = Domain.boolean ∨ p ∈ vars := by
  induction l with
  | nil => intro vars p h; right; exact h
  | cons q tl ih =>
    intro vars p h
    have htl : ∀ r ∈ tl, r.2 = Domain.boolean := fun r hr => hl r (List.mem_cons_of_mem _ hr)
    have hfold : p ∈ dictUpdateMany (dictUpdate vars q.1 q.2) tl := h
    have h' := ih htl hfold
    rcases h' with h' | h'
    · left; exact h'
    · rcases dictUpdate_mem h' with h'' | h''
      · left; rw [h'']; exact hl q (List.mem_cons_self q tl)
      · right; exact h''

/-! The claim theorems. -/

/-- C8: `mutex` on the empty list or on any single-label list returns
the empty formula list (after the empty-string skip), while
`exactly_one` on the empty list returns the empty list and on a single
label returns just that label asserted unconditionally (its `pstr`
parenthesisation, with no disjunction wrapper). -/
theorem mutex_exactly_one_degenerate :
    mutex [] = [] ∧ (∀ x : String, mutex [x] = []) ∧
    exactly_one [] = ([] : List String) ∧
    (∀ x : String, exactly_one [x] = [pstr x]) := by
  refine ⟨rfl, mutex_singleton, rfl, exactly_one_singleton⟩

/-- C7: for every finite label list and every Boolean valuation,
satisfying the formula produced by `exactly_one` (read by
`exactly_one_sem`) implies satisfying the formula produced by `mutex`
(read by `mutex_sem`): exactly-one implies mutual exclusion. -/
theorem exactly_one_sem_implies_mutex_sem (l : List String) (v : String → Bool)
    (h : exactly_one_sem l v = true) : mutex_sem l v = true := by
  by_cases hit : (l.filter fun x => x ≠ "").length ≤ 1
  · simp only [mutex_sem]
    rw [if_pos hit]
  · have hl : ¬ l.length ≤ 1 := fun h' =>
      hit (le_trans (List.length_filter_le _ _) h')
    simp only [mutex_sem]
    rw [if_neg hit]
    simp only [exactly_one_sem] at h
    rw [if_neg hl] at h
    rw [List.any_eq_true] at h
    obtain ⟨x, hxl, hx⟩ := h
    rw [Bool.and_eq_true] at hx
    obtain ⟨hvx, hall⟩ := hx
    rw [List.all_eq_true] at hall
    rw [List.all_eq_true]
    intro z hz
    rw [List.mem_filter] at hz
    by_cases hzx : z = x
    · subst hzx
      rw [Bool.or_eq_true]
      right
      rw [List.all_eq_true]
      intro y hy
      rw [List.mem_filter] at hy
      have hyl : y ∈ l := (List.mem_filter.mp hy.1).1
      exact hall y (List.mem_filter.mpr ⟨hyl, hy.2⟩)
    · rw [Bool.or_eq_true]
      left
      have hzmem : z ∈ l.filter fun y => y ∉ [x] := by
        refine List.mem_filter.mpr ⟨hz.1, ?_⟩
        simpa using hzx
      simpa using hall z hzmem

/-- C7 witness: a concrete valuation satisfying exactly-one of two
labels satisfies their mutex formula. -/
theorem exactly_one_sem_implies_mutex_sem_inst :
    mutex_sem ["a", "b"] (fun s => s == "a") = true :=
  exactly_one_sem_implies_mutex_sem ["a", "b"] (fun s => s == "a") (by decide)

/-- C3: a state set of size less than 3 always takes the Boolean branch
of `create_states`, whatever `bool_states` was: the identity id map,
one `'boolean'` variable per state and the generated exactly-one
constraint appended to the safety list; and every variable of the
result is `'boolean'` unless it was already declared — in particular no
integer state variable is declared. -/
theorem create_states_small_forces_bool (states : List String)
    (vars : List (String × Domain)) (trans : List String)
    (statevar : String) (bool_states : Bool) (h : states.length < 3) :
    create_states states vars trans statevar bool_states =
      (fun x => x,
       dictUpdateMany vars (states.map fun s => (s, Domain.boolean)),
       trans ++ exactly_one states) ∧
    ∀ p ∈ (create_states states vars trans statevar bool_states).2.1,
      p.2 = Domain.boolean ∨ p ∈ vars := by
  have heq : create_states states vars trans statevar bool_states =
      (fun x => x,
       dictUpdateMany vars (states.map fun s => (s, Domain.boolean)),
       trans ++ exactly_one states) := by
    unfold create_states
    rw [if_pos h]
    rfl
  refine ⟨heq, ?_⟩
  intro p hp
  rw [heq] at hp
  exact dictUpdateMany_mem (by simp) hp

/-- C3 witness: two states with `bool_states = false` still produce two
Boolean variables and the exactly-one safety constraint. -/
theorem create_states_small_forces_bool_inst :
    create_states ["X0", "X1"] [] [] "loc" false =
      (fun x => x,
       dictUpdateMany [] (["X0", "X1"].map fun s => (s, Domain.boolean)),
       [] ++ exactly_one ["X0", "X1"]) ∧
    ∀ p ∈ (create_states ["X0", "X1"] [] [] "loc" false).2.1,
      p.2 = Domain.boolean ∨ p ∈ ([] : List (String × Domain)) :=
  create_states_small_forces_bool ["X0", "X1"] [] [] "loc" false (by decide)

/-- C10: `create_actions` on a single Boolean-encoded action (the
Boolean path is taken whenever `bool_actions` is true or no mutual
exclusion is requested) declares the action as a `'boolean'` variable
and returns early — `mutex` of one value is empty — so neither `trans`
nor `init` gains a constraint, for every `actions_must` value; whereas
`exactly_one` applied directly to the one-element list would assert the
action. -/
theorem create_actions_single_bool_action (a : ActVal)
    (vars : List (String × Domain)) (trans init : List String)
    (actionvar : String) (bool_actions : Bool) (m : ActionsMust)
    (h : bool_actions = true ∨ m = ActionsMust.none) :
    create_actions [a] vars trans init actionvar bool_actions m =
      (some ActVal.name,
       dictUpdateMany vars [(a.name, Domain.boolean)], trans, init) ∧
    exactly_one [a.name] = [pstr a.name] := by
  refine ⟨?_, exactly_one_singleton a.name⟩
  have hmx : (mutex [a.name]).isEmpty = true := by
    rw [mutex_singleton]; rfl
  rcases h with h | h
  · subst h
    cases m <;> simp [create_actions, hmx]
  · subst h
    simp [create_actions, hmx]

/-- C10 witness: a single action with `actions_must = 'xor'` and bool
encoding leaves `trans` and `init` untouched. -/
theorem create_actions_single_bool_action_inst :
    create_actions [ActVal.strv "go"] [] ["t0"] ["i0"] "act" true ActionsMust.xor =
      (some ActVal.name,
       dictUpdateMany [] [((ActVal.strv "go").name, Domain.boolean)],
       ["t0"], ["i0"]) ∧
    exactly_one [(ActVal.strv "go").name] = [pstr (ActVal.strv "go").name] :=
  create_actions_single_bool_action (ActVal.strv "go") [] ["t0"] ["i0"] "act"
    true ActionsMust.xor (Or.inl rfl)

/-- C4: evaluation of `create_actions`/`actions2ints` at the encodings
the claim describes.  The no-mutex case forces Boolean variables and the
integer/xor domains have the claimed sizes, but the string sentinel is
`actionvar + 'none'` — here `'eactnone'` — not the string `'none'`
expected by the claim, by the function's own docstring and by the test
`test_env_fts_int_actions` (`set(spec.env_vars['eact']) ==
{'park', 'go', 'stop', 'none'}`). -/
theorem actions2ints_none_sentinel_eval :
    (actions2ints [.strv "park", .strv "go", .strv "stop"] "eact" false).2 =
      Domain.enum ["park", "go", "stop", "eactnone"] ∧
    ("none" ∈ ["park", "go", "stop", "eactnone"]) = False ∧
    (actions2ints [.intv 0, .intv 1, .intv 2] "act" false).2 =
      Domain.intRange 0 3 ∧
    (actions2ints [.strv "park", .strv "go", .strv "stop"] "eact" true).2 =
      Domain.enum ["park", "go", "stop"] ∧
    (actions2ints [.intv 0, .intv 1, .intv 2] "act" true).2 =
      Domain.intRange 0 2 ∧
    (create_actions [.strv "p", .strv "q"] [] [] [] "act" false
        ActionsMust.none).2 =
      ([("p", Domain.boolean), ("q", Domain.boolean)], [], []) := by
  refine ⟨rfl, by simp, rfl, rfl, rfl, rfl⟩

/-- C1: with `ignore_initial = False`, an FTS with no initial states
yields the initial-formula list `['False']` (the labelling loop
contributes nothing) together with exactly the no-initial-states
warning; an FTS with a non-empty initial set yields no warning and its
formula list ends with the disjunction over the initial states'
identifiers — `disjOf` parenthesises each identifier, so the disjunct
set is exactly the initial states' identifiers, independent of order. -/
theorem sys_init_from_ts_false_or_disjunction (states : FtsStates)
    (state_ids : String → String) (aps : List String) :
    (states.initial = [] →
      sys_init_from_ts states state_ids aps false =
        (["False"], [noInitialStatesMsg])) ∧
    (states.initial ≠ [] →
      (sys_init_from_ts states state_ids aps false).1.getLast? =
        some (disjOf (states.initial.map fun s => state_ids s)) ∧
      (sys_init_from_ts states state_ids aps false).2 = []) := by
  constructor
  · intro h
    simp [sys_init_from_ts, h]
  · intro h
    have hne : states.initial.isEmpty = false := by
      simpa [List.isEmpty_iff] using h
    constructor
    · simp only [sys_init_from_ts, if_neg (Bool.false_ne_true), hne]
      simp [List.getLast?_concat]
    · simp [sys_init_from_ts, hne]

/-- C1 witness: an FTS with no initial states, and one with initial
states `{s0, s2}` of `{s0, s1, s2}`. -/
theorem sys_init_from_ts_false_or_disjunction_inst :
    sys_init_from_ts ⟨["s0"], [], fun _ => {}⟩ (fun s => s) [] false =
      (["False"], [noInitialStatesMsg]) ∧
    (sys_init_from_ts ⟨["s0", "s1", "s2"], ["s0", "s2"], fun _ => {}⟩
        (fun s => s) [] false).1.getLast? =
      some (disjOf (["s0", "s2"].map fun s => s)) :=
  ⟨(sys_init_from_ts_false_or_disjunction ⟨["s0"], [], fun _ => {}⟩
      (fun s => s) []).1 rfl,
   ((sys_init_from_ts_false_or_disjunction ⟨["s0", "s1", "s2"], ["s0", "s2"],
      fun _ => {}⟩ (fun s => s) []).2 (by simp)).1⟩

/-- C2 counterexample: a one-state transition system with no
transitions.  `sys_trans_from_ts` emits the deadlock clause but records
zero warnings, not exactly one: its body contains no `warn` call. -/
theorem sys_trans_from_ts_no_warning_cex :
    sys_trans_from_ts ["s0"] (fun s => s) ⟨[]⟩
        Option.none Option.none Option.none =
      (["(s0) -> X(False)"], []) ∧
    ¬ (sys_trans_from_ts ["s0"] (fun s => s) ⟨[]⟩
        Option.none Option.none Option.none).2.length = 1 := by
  exact ⟨rfl, by decide⟩

/-- C2 (amended): for every state with zero outgoing transitions, the
system safety list produced by `sys_trans_from_ts` contains the clause
`state -> X(False)` for that state, and `sys_trans_from_ts` records no
warning at all (the deadlock warning exists only in the
environment-view encoder `env_trans_from_env_ts`). -/
theorem sys_trans_from_ts_deadlock_clause (states : List String)
    (state_ids : String → String) (trans : Transitions)
    (a s e : Option (List (String × String))) (st : String)
    (hmem : st ∈ states) (hdead : trans.find st = []) :
    (pstr (state_ids st) ++ " -> X(False)") ∈
      (sys_trans_from_ts states state_ids trans a s e).1 ∧
    (sys_trans_from_ts states state_ids trans a s e).2 = [] := by
  constructor
  · refine List.mem_map.mpr ⟨st, hmem, ?_⟩
    simp [sysTransClause, hdead]
  · rfl

/-- C2 witness: the deadlock clause for the concrete one-state system. -/
theorem sys_trans_from_ts_deadlock_clause_inst :
    (pstr "s0" ++ " -> X(False)") ∈
      (sys_trans_from_ts ["s0"] (fun s => s) ⟨[]⟩
        Option.none Option.none Option.none).1 ∧
    (sys_trans_from_ts ["s0"] (fun s => s) ⟨[]⟩
        Option.none Option.none Option.none).2 = [] :=
  sys_trans_from_ts_deadlock_clause ["s0"] (fun s => s) ⟨[]⟩
    Option.none Option.none Option.none "s0" (by simp) rfl

/-- C5: in the environment-view encoder, a state with at least one
outgoing transition contributes its clause to the result; when some
outgoing edge carries no system-action condition (`found_free`), the
clause's disjunction consists of the edge postconditions only, and
otherwise — provided system action ids exist — it additionally carries
the conjunction of all negated system actions as a final disjunct. -/
theorem env_trans_from_env_ts_free_fallback (states : List String)
    (state_ids : String → String) (trans : Transitions)
    (a e s : Option (List (String × String))) (st : String)
    (hmem : st ∈ states) (hne : ¬ trans.find st = []) :
    envTransClause state_ids trans a e s st ∈
      (env_trans_from_env_ts states state_ids trans a e s).1 ∧
    (((trans.find st).any fun tr =>
        conjAction tr.2.2 Label.sys_actions false s = "") = true →
      envTransClause state_ids trans a e s st =
        pstr (pstr (state_ids st)) ++ " -> (" ++
          disjOf ((trans.find st).map fun tr =>
            envEdgePostcond state_ids a e s tr) ++ ")") ∧
    (((trans.find st).any fun tr =>
        conjAction tr.2.2 Label.sys_actions false s = "") = false →
      dictTruthy s = true →
      envTransClause state_ids trans a e s st =
        pstr (pstr (state_ids st)) ++ " -> (" ++
          disjOf (((trans.find st).map fun tr =>
              envEdgePostcond state_ids a e s tr)
            ++ [conjNeg ((s.getD []).map fun p => p.2) true]) ++ ")") := by
  have hemp : (trans.find st).isEmpty = false := by
    simpa [List.isEmpty_iff] using hne
  refine ⟨List.mem_map.mpr ⟨st, hmem, rfl⟩, ?_, ?_⟩
  · intro hfree
    simp [envTransClause, hemp, hfree]
  · intro hfree htruthy
    simp [envTransClause, hemp, hfree, htruthy]

/-- C5 witness: one state whose single outgoing edge is free of
system-action conditions (postconditions only), and one whose single
outgoing edge requires the system action `go` (negated-actions disjunct
appended). -/
theorem env_trans_from_env_ts_free_fallback_inst :
    envTransClause (fun s => s) ⟨[("s0", "s1", {})]⟩
        Option.none Option.none (some [("go", "go")]) "s0" =
      pstr (pstr "s0") ++ " -> (" ++
        disjOf ((Transitions.find ⟨[("s0", "s1", {})]⟩ "s0").map fun tr =>
          envEdgePostcond (fun s => s) Option.none Option.none
            (some [("go", "go")]) tr) ++ ")" ∧
    envTransClause (fun s => s)
        ⟨[("s0", "s1", { sys_actions := some "go" })]⟩
        Option.none Option.none (some [("go", "go")]) "s0" =
      pstr (pstr "s0") ++ " -> (" ++
        disjOf (((Transitions.find ⟨[("s0", "s1",
              { sys_actions := some "go" })]⟩ "s0").map fun tr =>
            envEdgePostcond (fun s => s) Option.none Option.none
              (some [("go", "go")]) tr)
          ++ [conjNeg (([("go", "go")].map fun p => p.2)) true]) ++ ")" :=
  ⟨((env_trans_from_env_ts_free_fallback ["s0"] (fun s => s)
      ⟨[("s0", "s1", {})]⟩ Option.none Option.none (some [("go", "go")])
      "s0" (by simp) (by decide)).2.1) (by decide),
   ((env_trans_from_env_ts_free_fallback ["s0"] (fun s => s)
      ⟨[("s0", "s1", { sys_actions := some "go" })]⟩ Option.none Option.none
      (some [("go", "go")]) "s0" (by simp) (by decide)).2.2) (by decide)
      (by decide)⟩

/-- The tree `And(Release(Var p, Var q), Var r)` with graph keys 1..5:
`BiTempOp('V', ...)` stores the mapped operator `'R'`. -/
def releaseUnderAnd : AstNode :=
  AstNode.and 1 (AstNode.bitemp 2 "R" (AstNode.var 3 "p") (AstNode.var 4 "q"))
    (AstNode.var 5 "r")

/-- C6: evaluation of the release-rendering behaviour.  A release node
at the root raises `LTLException` naming the operator and the dialect in
both `to_gr1c` and `to_jtlv` — but a tree merely containing a release
node below the root renders successfully, because the child accessors
return networkx graph keys (`id(child)` integers) and the
`AttributeError` fallback of `flatten` stringifies them instead of
recursing, so `And(Release(p, q), r)` yields the text `( 2 & 5 )` /
`( 2 && 5 )` with no error. -/
theorem to_gr1c_release_eval :
    containsRelease releaseUnderAnd = true ∧
    to_gr1c false releaseUnderAnd = Except.ok "( 2 & 5 )" ∧
    to_jtlv releaseUnderAnd = Except.ok "( 2 && 5 )" ∧
    to_gr1c false (AstNode.bitemp 2 "R" (AstNode.var 3 "p") (AstNode.var 4 "q")) =
      Except.error "Operator R not supported in gr1c syntax map" ∧
    to_jtlv (AstNode.bitemp 2 "R" (AstNode.var 3 "p") (AstNode.var 4 "q")) =
      Except.error "Operator R not supported in JTLV syntax map" ∧
    mkBiTempOp 2 "V" (AstNode.var 3 "p") (AstNode.var 4 "q") =
      some (AstNode.bitemp 2 "R" (AstNode.var 3 "p") (AstNode.var 4 "q")) := by
  refine ⟨rfl, rfl, rfl, rfl, rfl, rfl⟩

/-- C9: evaluation of binary-node rendering.  `And(Var a, Var b)`
renders to `( 2 & 3 )` in the gr1c dialect and `( 2 && 3 )` in the JTLV
dialect: the operands' own rendered texts (`a`, `(a)`, ...) never occur
in the output at all — let alone parenthesised — because the child
accessors return graph keys and `flatten`'s `AttributeError` fallback
prints those integers. -/
theorem binary_flatten_ids_eval :
    isBinary (AstNode.and 1 (AstNode.var 2 "a") (AstNode.var 3 "b")) = true ∧
    to_gr1c false (AstNode.and 1 (AstNode.var 2 "a") (AstNode.var 3 "b")) =
      Except.ok "( 2 & 3 )" ∧
    to_gr1c false (AstNode.var 2 "a") = Except.ok "a" ∧
    strContains "( 2 & 3 )" "a" = false ∧
    strContains "( 2 & 3 )" "(a)" = false ∧
    to_jtlv (AstNode.and 1 (AstNode.var 2 "a") (AstNode.var 3 "b")) =
      Except.ok "( 2 && 3 )" ∧
    to_jtlv (AstNode.var 2 "a") = Except.ok "(a)" ∧
    strContains "( 2 && 3 )" "(a)" = false := by
  refine ⟨rfl, rfl, rfl, by decide, by decide, rfl, rfl, by decide⟩

end Tulip
